import Mathlib

/-!
Verification of the `human-panic` panic-handler crate (`src/lib.rs`) against its
natural-language specification.

The Rust source is shallowly embedded:

* `Metadata`, `PanicInfo`, `Location`, `Symbol`, `Frame` mirror the data the
  source manipulates.  A panic payload is either a `&str`, a `String`, or some
  other non-string value, matching the two `downcast_ref` probes in
  `format_panic`.
* `format_panic` and `format_backtrace` are the pure formatting functions of the
  source.  The live stack capture (`Backtrace::new()`), which sits inside the
  Rust `format_backtrace`, is represented by passing the captured frame list
  (the Stack Walker's output) as an explicit argument; the pointer size
  (`mem::size_of::<usize>()`) is a parameter `ptrSize`.  Rust's `write!` into a
  `String` buffer never fails (`fmt::Write for String` always returns `Ok`);
  the source discards those results with `let _ = ...`, and the embedding
  renders the appends directly.  `format_backtrace_exc` is a second rendering
  of the same loop in the `Except` monad that propagates every hypothetical
  write error instead of discarding it, used to prove totality.
* `print_msg` is modelled as a sequence of buffer operations (`BufOp`), run by
  `runOps` under an I/O-failure oracle `fail : Nat → Bool` giving the outcome of
  the n-th fallible call (`set_color`, each `writeln!`, `reset`, and the final
  `stderr.print`).  The `?` operator is early return (`Except`); the final
  `stderr.print(&buffer).unwrap()` panics on failure, giving `PrintOutcome`.
* The hook installed by the `setup_human_panic_logger!` macro is modelled by
  `hookRun`, which returns the ordered list of observable events of one panic:
  invoking the previous (default) hook, appending to the log sink, flushing the
  user message to the terminal, or raising a secondary panic (`expect` /
  `unwrap`).  `std::panic::take_hook` resets the active hook to the standard
  default one, so when `RUST_BACKTRACE` is set (and `set_hook` is therefore
  never called) the default hook is what fires.
-/

namespace HumanPanic

/-- Crate metadata struct, from the source's `Metadata`. -/
structure Metadata where
  version : String
  name : String
  authors : String
  homepage : String
deriving DecidableEq, Repr

/-- Source location of a panic, from `std::panic::Location` as used by the source. -/
structure Location where
  file : String
  line : Nat
deriving DecidableEq, Repr

/-- Panic payload: the source probes `downcast_ref` for a borrowed str and for an owned
string; anything else yields no message. -/
inductive Payload where
  | plainStr (s : String)
  | ownedString (s : String)
  | other
deriving DecidableEq, Repr

/-- The panic information record handed to the hook by the runtime. -/
structure PanicInfo where
  payload : Payload
  location : Option Location
deriving DecidableEq, Repr

/-- One resolved symbol of a stack frame, from `backtrace::BacktraceSymbol`. -/
structure Symbol where
  name : Option String
  filename : Option String
  lineno : Option Nat
deriving DecidableEq, Repr

/-- One captured stack frame, from `backtrace::BacktraceFrame`: an instruction
pointer and zero or more resolved symbols. -/
structure Frame where
  ip : Nat
  symbols : List Symbol
deriving DecidableEq, Repr

/-- Constant SKIP_FRAMES_NUM from the source: leading frames of the capture that
belong to the interception machinery. -/
def SKIP_FRAMES_NUM : Nat := 8

/-- Constant HEX_WIDTH from the source: `mem::size_of::<usize>() + 2`, with the
pointer size in bytes as a parameter. -/
def HEX_WIDTH (ptrSize : Nat) : Nat := ptrSize + 2

/-- Constant NEXT_SYMBOL_PADDING from the source: `HEX_WIDTH + 6`. -/
def NEXT_SYMBOL_PADDING (ptrSize : Nat) : Nat := HEX_WIDTH ptrSize + 6

/-- A run of `n` spaces, as produced by an empty-string write with a width. -/
def spaces (n : Nat) : String := String.mk (List.replicate n ' ')

/-- Right-aligned space padding to a minimum width, Rust's default numeric
format with a width. -/
def padLeft (width : Nat) (s : String) : String := spaces (width - s.length) ++ s

/-- Pointer rendering with a minimum width, as the source's width-parameterised
Debug format produces it: `Pointer` formatting forces the `0x` prefix and then
pads right-aligned with spaces written before the prefix, the prefix and digits
counting toward the width (zero-extension after the prefix would happen only
under the alternate flag, which the source's format string does not pass). -/
def formatPtr (width : Nat) (ip : Nat) : String :=
  String.mk (List.replicate (width - (2 + (Nat.toDigits 16 ip).length)) ' ')
    ++ "0x" ++ String.mk (Nat.toDigits 16 ip)

/-- Continuation padding before a symbol, written only for symbols after the
first one of a frame (`if idx != 0` in the source). -/
def symbolPad (ptrSize jdx : Nat) : String :=
  if jdx ≠ 0 then "\n" ++ spaces (NEXT_SYMBOL_PADDING ptrSize) else ""

/-- The symbol-name fragment: the demangled name when present, the explicit
unknown marker otherwise. -/
def symbolName (s : Symbol) : String :=
  match s.name with
  | some n => " - " ++ n
  | none => " - <unknown>"

/-- The debug-info fragment: a continuation line with file and line, written only
when both are resolved. -/
def symbolLoc (ptrSize : Nat) (s : Symbol) : String :=
  match s.filename, s.lineno with
  | some f, some l => "\n" ++ spaces (NEXT_SYMBOL_PADDING ptrSize) ++ "at " ++ f ++ ":" ++ toString l
  | _, _ => ""

/-- Everything the inner loop of `format_backtrace` writes for one symbol. -/
def renderSymbol (ptrSize jdx : Nat) (s : Symbol) : String :=
  symbolPad ptrSize jdx ++ symbolName s ++ symbolLoc ptrSize s

/-- The inner loop of `format_backtrace` over `frame.symbols()`, `jdx` being the
enumeration index of the first symbol of the remaining list. -/
def renderSymbolsFrom (ptrSize jdx : Nat) : List Symbol → String
  | [] => ""
  | s :: rest => renderSymbol ptrSize jdx s ++ renderSymbolsFrom ptrSize (jdx + 1) rest

/-- The frame-header write of `format_backtrace`: newline, the frame index padded
to width 4, a colon, and the instruction pointer at width HEX_WIDTH. -/
def frameHeader (ptrSize idx : Nat) (fr : Frame) : String :=
  "\n" ++ padLeft 4 (toString idx) ++ ": " ++ formatPtr (HEX_WIDTH ptrSize) fr.ip

/-- Everything the outer loop of `format_backtrace` writes for one frame: the
header, then either the explicit unresolved marker (`continue`) or the symbol
renderings. -/
def renderFrame (ptrSize idx : Nat) (fr : Frame) : String :=
  frameHeader ptrSize idx fr ++
    (if fr.symbols.isEmpty then " - <unresolved>" else renderSymbolsFrom ptrSize 0 fr.symbols)

/-- The outer loop of `format_backtrace` over the captured frames, `idx` being
the enumeration index of the first frame of the remaining list. -/
def renderFramesFrom (ptrSize idx : Nat) : List Frame → String
  | [] => ""
  | fr :: rest => renderFrame ptrSize idx fr ++ renderFramesFrom ptrSize (idx + 1) rest

/-- The function `format_backtrace` of the source: skip `SKIP_FRAMES_NUM` leading
frames of the capture, then render each remaining frame in order. -/
def format_backtrace (ptrSize : Nat) (captured : List Frame) : String :=
  renderFramesFrom ptrSize 0 (captured.drop SKIP_FRAMES_NUM)

/-- Message extraction of `format_panic` (non-nightly path): the payload
downcast as a borrowed or owned string, if either applies. -/
def panicMessage : Payload → Option String
  | .plainStr s => some s
  | .ownedString s => some s
  | .other => none

/-- The function `format_panic` of the source: the location line (or its absence
marker), the cause (or Unknown), and the backtrace block. -/
def format_panic (ptrSize : Nat) (captured : List Frame) (panic_info : PanicInfo) : String :=
  let cause : String :=
    match panicMessage panic_info.payload with
    | some m => m
    | none => "Unknown"
  let expl : String :=
    match panic_info.location with
    | some location =>
        "Panic occurred in file \x27" ++ location.file ++ "\x27 at line "
          ++ toString location.line ++ "\n"
    | none => "Panic location unknown.\n"
  expl ++ "\n   " ++ cause ++ "\n" ++ format_backtrace ptrSize captured

/-- The list of per-frame renderings (one string per frame after the skip),
used to state frame-count and frame-index properties of the backtrace block. -/
def renderedEntries (ptrSize idx : Nat) : List Frame → List String
  | [] => []
  | fr :: rest => renderFrame ptrSize idx fr :: renderedEntries ptrSize (idx + 1) rest

/-- Concatenation of a list of strings. -/
def joinAll : List String → String
  | [] => ""
  | s :: rest => s ++ joinAll rest

/-- A `fmt::Write` string write as Rust defines it for `String` buffers: append
and return success (this impl never reports an error). -/
def writeS (buf s : String) : Except Unit String := Except.ok (buf ++ s)

/-- The inner symbol loop of `format_backtrace`, rendered in the `Except` monad
so that every write error would propagate instead of being discarded. -/
def symbolsExc (ptrSize jdx : Nat) (buf : String) : List Symbol → Except Unit String
  | [] => Except.ok buf
  | s :: rest => do
      let b1 ← if jdx ≠ 0 then writeS buf ("\n" ++ spaces (NEXT_SYMBOL_PADDING ptrSize))
               else Except.ok buf
      let b2 ← match s.name with
        | some n => writeS b1 (" - " ++ n)
        | none => writeS b1 " - <unknown>"
      let b3 ← match s.filename, s.lineno with
        | some f, some l =>
            writeS b2 ("\n" ++ spaces (NEXT_SYMBOL_PADDING ptrSize) ++ "at " ++ f ++ ":" ++ toString l)
        | _, _ => Except.ok b2
      symbolsExc ptrSize (jdx + 1) b3 rest

/-- The outer frame loop of `format_backtrace`, rendered in the `Except` monad
so that every write error would propagate instead of being discarded. -/
def framesExc (ptrSize idx : Nat) (buf : String) : List Frame → Except Unit String
  | [] => Except.ok buf
  | fr :: rest => do
      let b1 ← writeS buf (frameHeader ptrSize idx fr)
      let b2 ← if fr.symbols.isEmpty then writeS b1 " - <unresolved>"
               else symbolsExc ptrSize 0 b1 fr.symbols
      framesExc ptrSize (idx + 1) b2 rest

/-- Error-propagating rendering of `format_backtrace`, for the totality claim. -/
def format_backtrace_exc (ptrSize : Nat) (captured : List Frame) : Except Unit String :=
  framesExc ptrSize 0 "" (captured.drop SKIP_FRAMES_NUM)

/-- One operation recorded into the termcolor buffer by `print_msg`: a color
change, a text write (`writeln!` payload with its trailing newline), or the
final style reset. -/
inductive BufOp where
  | setColor (c : String)
  | write (s : String)
  | reset
deriving DecidableEq, Repr

/-- First message line of `print_msg` (the source literal plus the newline that
`writeln!` appends). -/
def msgLine1 : String := "Well, this is embarrassing.\n\n"

/-- Second message line of `print_msg`, interpolating the crate name. -/
def msgLine2 (name : String) : String :=
  name ++ " had a problem and crashed. To help us diagnose the problem you can send us a crash report.\n\n"

/-- Text of the third message line before the log file path. -/
def m3a : String := "There is a log file of the crash at \""

/-- Text of the third message line after the log file path, interpolating the
crate name. -/
def m3b (name : String) : String :=
  "\". Please submit an issue or email with the subject of \"" ++ name
    ++ " Crash Report\" and include the log as an attachment.\n\n"

/-- Third message line of `print_msg`, interpolating the log file path and the
crate name. -/
def msgLine3 (path name : String) : String := m3a ++ path ++ m3b name

/-- Privacy paragraph of `print_msg`. -/
def msgLine6 : String :=
  "\nWe take privacy seriously, and do not perform any automated error collection. In order to improve the software, we rely on people to submit reports.\n\n"

/-- Closing line of `print_msg`. -/
def msgLine7 : String := "Thank you!\n"

/-- The buffer operations of `print_msg` before the final `buffer.reset()`, in
source order: the color set, the fixed prose, and the Homepage and Authors lines
written only when the respective metadata field is nonempty. -/
def opsFront (path : String) (meta : Metadata) : List BufOp :=
  [BufOp.setColor "White", BufOp.write msgLine1, BufOp.write (msgLine2 meta.name),
    BufOp.write (msgLine3 path meta.name)]
  ++ (if meta.homepage ≠ "" then [BufOp.write ("- Homepage: " ++ meta.homepage ++ "\n")] else [])
  ++ (if meta.authors ≠ "" then [BufOp.write ("- Authors: " ++ meta.authors ++ "\n")] else [])
  ++ [BufOp.write msgLine6, BufOp.write msgLine7]

/-- All fallible buffer operations of `print_msg`, ending with `buffer.reset()`. -/
def opsList (path : String) (meta : Metadata) : List BufOp :=
  opsFront path meta ++ [BufOp.reset]

/-- State threaded through `print_msg`: the index of the next fallible I/O call
(consumed by the failure oracle) and the buffer contents so far. -/
abbrev PState := Nat × List BufOp

/-- One fallible buffer call: under oracle `fail`, the call either appends its
operation to the buffer or reports an I/O error, as the `?` operator sees it. -/
def pstep (fail : Nat → Bool) (op : BufOp) (st : PState) : Except PState PState :=
  if fail st.1 then Except.error (st.1 + 1, st.2) else Except.ok (st.1 + 1, st.2 ++ [op])

/-- Sequential execution of the buffer calls with `?`-style early return. -/
def runOps (fail : Nat → Bool) : List BufOp → PState → Except PState PState
  | [], st => Except.ok st
  | op :: rest, st =>
    match pstep fail op st with
    | Except.error e => Except.error e
    | Except.ok st2 => runOps fail rest st2

/-- Outcome of a `print_msg` call: `ok buf` means every call succeeded and the
buffer `buf` was flushed to stderr; `ioError buf` means some buffered call
failed and the function returned `Err` with `buf` still unflushed; `panicked
buf` means the final `stderr.print(&buffer).unwrap()` failed, raising a panic
inside `print_msg`. -/
inductive PrintOutcome where
  | ok (buf : List BufOp)
  | ioError (buf : List BufOp)
  | panicked (buf : List BufOp)
deriving DecidableEq, Repr

/-- The function `print_msg` of the source under failure oracle `fail`: run the
buffered calls with early return, then flush the buffer, unwrapping the flush
result. -/
def print_msg (fail : Nat → Bool) (file_path : String) (meta : Metadata) : PrintOutcome :=
  match runOps fail (opsList file_path meta) (0, []) with
  | Except.error st => PrintOutcome.ioError st.2
  | Except.ok st => if fail st.1 then PrintOutcome.panicked st.2 else PrintOutcome.ok st.2

/-- Text content of a buffer: the concatenation of its write payloads. -/
def renderBuf : List BufOp → String
  | [] => ""
  | BufOp.write s :: rest => s ++ renderBuf rest
  | _ :: rest => renderBuf rest

/-- Panic message of the `expect` call the macro places on `print_msg`. -/
def expectMsg : String := "human-panic-logger: printing error message to console failed"

/-- Panic message standing for the `unwrap` of the final stderr flush inside
`print_msg`. -/
def flushPanicMsg : String := "stderr print failed"

/-- Observable event of one panic dispatch: the previous (standard default) hook
running, a record appended to the log sink, a buffer flushed to the terminal, or
a secondary panic raised inside the handler. -/
inductive Event where
  | defaultHook
  | logAppend (s : String)
  | termPrint (buf : List BufOp)
  | panicked (msg : String)
deriving DecidableEq, Repr

/-- One panic dispatch under the installation the macro performs.  When
`RUST_BACKTRACE` is set (`rbSet`), `set_hook` was never called after
`take_hook`, so only the default hook fires.  Otherwise the installed closure
runs: in debug builds it first calls the saved default hook; it always logs
`error!` with the `Panic! :: ` prefix; in release builds only, it then calls
`print_msg` and `expect`s the result. -/
def hookRun (rbSet debug : Bool) (fail : Nat → Bool) (ptrSize : Nat) (frames : List Frame)
    (panic_info : PanicInfo) (path : String) (meta : Metadata) : List Event :=
  if rbSet then [Event.defaultHook]
  else
    (if debug then [Event.defaultHook] else [])
    ++ [Event.logAppend ("Panic! :: " ++ format_panic ptrSize frames panic_info)]
    ++ (if debug then []
        else
          match print_msg fail path meta with
          | PrintOutcome.ok buf => [Event.termPrint buf]
          | PrintOutcome.ioError _ => [Event.panicked expectMsg]
          | PrintOutcome.panicked _ => [Event.panicked flushPanicMsg])

/-- Substring occurrence: the needle appears contiguously somewhere in the hay. -/
def strOccurs (needle hay : String) : Prop :=
  ∃ p s : List Char, hay.data = p ++ needle.data ++ s

/-- Number of positions of the hay at which the needle occurs. -/
def countOcc (needle : List Char) : List Char → Nat
  | [] => 0
  | c :: rest => (if needle.isPrefixOf (c :: rest) then 1 else 0) + countOcc needle rest

theorem strOccurs_of_eq (needle a b hay : String) (h : hay = a ++ needle ++ b) :
    strOccurs needle hay :=
  ⟨a.data, b.data, by rw [h]; simp [String.data_append]⟩

theorem strOccurs_append_right (needle pre hay : String) (h : strOccurs needle hay) :
    strOccurs needle (pre ++ hay) := by
  rcases h with ⟨p, s, hp⟩
  exact ⟨pre.data ++ p, s, by simp [String.data_append, hp]⟩

theorem strOccurs_append_left (needle hay post : String) (h : strOccurs needle hay) :
    strOccurs needle (hay ++ post) := by
  rcases h with ⟨p, s, hp⟩
  exact ⟨p, s ++ post.data, by simp [String.data_append, hp]⟩

theorem symbolsExc_ok (ptrSize : Nat) (syms : List Symbol) :
    ∀ (jdx : Nat) (buf : String),
      symbolsExc ptrSize jdx buf syms = Except.ok (buf ++ renderSymbolsFrom ptrSize jdx syms) := by
  induction syms with
  | nil => intro jdx buf; simp [symbolsExc, renderSymbolsFrom]
  | cons s rest ih =>
    intro jdx buf
    rcases s with ⟨name, filename, lineno⟩
    cases jdx <;> rcases name with _ | n <;> rcases filename with _ | f <;> rcases lineno with _ | l <;>
      simp [symbolsExc, renderSymbolsFrom, renderSymbol, writeS, symbolPad, symbolName, symbolLoc,
        ih, Bind.bind, Except.bind, String.append_assoc]

theorem framesExc_ok (ptrSize : Nat) (l : List Frame) :
    ∀ (idx : Nat) (buf : String),
      framesExc ptrSize idx buf l = Except.ok (buf ++ renderFramesFrom ptrSize idx l) := by
  induction l with
  | nil => intro idx buf; simp [framesExc, renderFramesFrom]
  | cons fr rest ih =>
    intro idx buf
    by_cases hs : fr.symbols.isEmpty <;>
      simp [framesExc, renderFramesFrom, renderFrame, writeS, hs, ih, symbolsExc_ok,
        Bind.bind, Except.bind, String.append_assoc]

/-- Claim C10: backtrace formatting is total.  The error-propagating rendering of
the `format_backtrace` loop, in which every buffer write returns its
`fmt::Result` and any error would abort the computation, succeeds on every
captured frame sequence and returns exactly the string the source's
error-discarding loop produces: no write can fail, so the function always
returns a string and can never fail or panic. -/
theorem claim_C10_backtrace_total (ptrSize : Nat) (captured : List Frame) :
    format_backtrace_exc ptrSize captured = Except.ok (format_backtrace ptrSize captured) := by
  simpa [format_backtrace_exc, format_backtrace] using
    framesExc_ok ptrSize (captured.drop SKIP_FRAMES_NUM) 0 ""

theorem renderedEntries_length (ptrSize : Nat) (l : List Frame) :
    ∀ idx : Nat, (renderedEntries ptrSize idx l).length = l.length := by
  induction l with
  | nil => intro idx; simp [renderedEntries]
  | cons fr rest ih => intro idx; simp [renderedEntries, ih]

theorem renderedEntries_getElem? (ptrSize : Nat) (l : List Frame) :
    ∀ (idx k : Nat),
      (renderedEntries ptrSize idx l)[k]? = (l[k]?).map (fun fr => renderFrame ptrSize (idx + k) fr) := by
  induction l with
  | nil => intro idx k; simp [renderedEntries]
  | cons fr rest ih =>
    intro idx k
    cases k with
    | zero => simp [renderedEntries]
    | succ k =>
      have h : idx + 1 + k = idx + (k + 1) := by omega
      simp [renderedEntries, ih, h]

theorem renderFramesFrom_eq_joinAll (ptrSize : Nat) (l : List Frame) :
    ∀ idx : Nat, renderFramesFrom ptrSize idx l = joinAll (renderedEntries ptrSize idx l) := by
  induction l with
  | nil => intro idx; simp [renderFramesFrom, renderedEntries, joinAll]
  | cons fr rest ih => intro idx; simp [renderFramesFrom, renderedEntries, joinAll, ih]

/-- Claim C5: after the fixed leading skip, every captured frame produces exactly
one rendered entry (the backtrace block is the concatenation of the entries, and
there are as many entries as post-skip frames), the entry at position `i` is
rendered with 0-based index `i` (so indices are strictly increasing in capture
order), and a frame with zero resolved symbols renders its header followed by
the explicit unresolved marker and no symbol-name fragment, never being
omitted. -/
theorem claim_C5_frame_rendering (ptrSize : Nat) (captured : List Frame) :
    format_backtrace ptrSize captured
        = joinAll (renderedEntries ptrSize 0 (captured.drop SKIP_FRAMES_NUM))
      ∧ (renderedEntries ptrSize 0 (captured.drop SKIP_FRAMES_NUM)).length
        = (captured.drop SKIP_FRAMES_NUM).length
      ∧ (∀ i : Nat, ∀ fr : Frame, (captured.drop SKIP_FRAMES_NUM)[i]? = some fr →
          (renderedEntries ptrSize 0 (captured.drop SKIP_FRAMES_NUM))[i]?
            = some (renderFrame ptrSize i fr))
      ∧ (∀ i : Nat, ∀ fr : Frame, fr.symbols = [] →
          renderFrame ptrSize i fr = frameHeader ptrSize i fr ++ " - <unresolved>") := by
  refine ⟨?_, renderedEntries_length ptrSize _ 0, ?_, ?_⟩
  · simpa [format_backtrace] using
      renderFramesFrom_eq_joinAll ptrSize (captured.drop SKIP_FRAMES_NUM) 0
  · intro i fr h
    simp [renderedEntries_getElem?, h]
  · intro i fr h
    simp [renderFrame, h]

/-- Claim C5 witness: a concrete capture of nine frames, the ninth (the only one
surviving the skip) having zero symbols, renders exactly one entry, at index 0,
with the unresolved marker. -/
theorem claim_C5_frame_rendering_witness :
    (renderedEntries 8 0 ((List.replicate 9 (Frame.mk 0 [])).drop SKIP_FRAMES_NUM))[0]?
        = some (renderFrame 8 0 (Frame.mk 0 []))
      ∧ renderFrame 8 0 (Frame.mk 0 [])
        = frameHeader 8 0 (Frame.mk 0 []) ++ " - <unresolved>" := by
  refine ⟨?_, ?_⟩
  · exact (claim_C5_frame_rendering 8 (List.replicate 9 (Frame.mk 0 []))).2.2.1 0
      (Frame.mk 0 []) (by decide)
  · exact (claim_C5_frame_rendering 8 (List.replicate 9 (Frame.mk 0 []))).2.2.2 0
      (Frame.mk 0 []) rfl

/-- Claim C7: the failure formatter is deterministic and pure.  In the embedding
the captured stack (the Stack Walker's output) and the pointer size are the only
inputs of `format_panic` besides the failure record, so two invocations on
identical inputs yield byte-identical output, and no other state can influence
the result. -/
theorem claim_C7_formatter_deterministic (ptrSize : Nat) (frames1 frames2 : List Frame)
    (info1 info2 : PanicInfo) (hf : frames1 = frames2) (hi : info1 = info2) :
    format_panic ptrSize frames1 info1 = format_panic ptrSize frames2 info2
      ∧ (format_panic ptrSize frames1 info1).data = (format_panic ptrSize frames2 info2).data := by
  subst hf; subst hi; exact ⟨rfl, rfl⟩

/-- Claim C7 witness: the two invocations coincide at a concrete record and
capture. -/
theorem claim_C7_formatter_deterministic_witness :
    format_panic 8 [] (PanicInfo.mk (Payload.plainStr "boom") (some (Location.mk "f.rs" 1)))
      = format_panic 8 [] (PanicInfo.mk (Payload.plainStr "boom") (some (Location.mk "f.rs" 1))) :=
  (claim_C7_formatter_deterministic 8 [] []
    (PanicInfo.mk (Payload.plainStr "boom") (some (Location.mk "f.rs" 1)))
    (PanicInfo.mk (Payload.plainStr "boom") (some (Location.mk "f.rs" 1))) rfl rfl).1

/-- Claim C2: when RUST_BACKTRACE is set, `set_hook` is never called, so a panic
fires only the previously active (default) handler: no log record is written, no
user message is printed, and no secondary panic can arise, whatever the build
mode or the state of the I/O oracle. -/
theorem claim_C2_env_optout (debug : Bool) (fail : Nat → Bool) (ptrSize : Nat)
    (frames : List Frame) (panic_info : PanicInfo) (path : String) (meta : Metadata) :
    hookRun true debug fail ptrSize frames panic_info path meta = [Event.defaultHook]
      ∧ (∀ s : String,
          Event.logAppend s ∉ hookRun true debug fail ptrSize frames panic_info path meta)
      ∧ (∀ b : List BufOp,
          Event.termPrint b ∉ hookRun true debug fail ptrSize frames panic_info path meta)
      ∧ (∀ m : String,
          Event.panicked m ∉ hookRun true debug fail ptrSize frames panic_info path meta) := by
  refine ⟨rfl, ?_, ?_, ?_⟩ <;> intro x <;> simp [hookRun]

theorem runOps_noFail (ops : List BufOp) :
    ∀ st : PState, runOps (fun _ => false) ops st = Except.ok (st.1 + ops.length, st.2 ++ ops) := by
  induction ops with
  | nil => intro st; simp [runOps]
  | cons op rest ih =>
    intro st
    simp only [runOps, pstep, Bool.false_eq_true, if_false]
    rw [ih]
    simp [List.append_assoc]
    omega

theorem print_msg_noFail (path : String) (meta : Metadata) :
    print_msg (fun _ => false) path meta = PrintOutcome.ok (opsList path meta) := by
  simp [print_msg, runOps_noFail]

theorem runOps_ok_buffer (fail : Nat → Bool) (ops : List BufOp) :
    ∀ st st' : PState, runOps fail ops st = Except.ok st' → st'.2 = st.2 ++ ops := by
  induction ops with
  | nil =>
    intro st st' h
    simp [runOps] at h
    simp [← h]
  | cons op rest ih =>
    intro st st' h
    by_cases hf : fail st.1
    · simp [runOps, pstep, hf] at h
    · simp only [runOps, pstep, hf, if_false] at h
      have := ih _ _ h
      simpa [List.append_assoc] using this

theorem runOps_error_buffer (fail : Nat → Bool) (ops : List BufOp) :
    ∀ st e : PState, runOps fail ops st = Except.error e →
      ∃ n : Nat, n < ops.length ∧ e.2 = st.2 ++ ops.take n := by
  induction ops with
  | nil => intro st e h; simp [runOps] at h
  | cons op rest ih =>
    intro st e h
    by_cases hf : fail st.1
    · simp only [runOps, pstep, hf, if_true] at h
      injection h with h2
      exact ⟨0, by simp, by simp [← h2]⟩
    · simp only [runOps, pstep, hf, if_false] at h
      rcases ih _ _ h with ⟨n, hn, he⟩
      exact ⟨n + 1, by simpa using hn, by simp [he, List.append_assoc]⟩

theorem print_msg_ok_buffer (fail : Nat → Bool) (path : String) (meta : Metadata)
    (buf : List BufOp) (h : print_msg fail path meta = PrintOutcome.ok buf) :
    buf = opsList path meta := by
  unfold print_msg at h
  rcases hr : runOps fail (opsList path meta) (0, []) with e | st
  · rw [hr] at h; exact absurd h (by simp)
  · rw [hr] at h
    by_cases hf : fail st.1
    · simp [hf] at h
    · simp [hf] at h
      have := runOps_ok_buffer fail (opsList path meta) _ _ hr
      simpa [← h] using this

theorem print_msg_ioError_buffer (fail : Nat → Bool) (path : String) (meta : Metadata)
    (buf : List BufOp) (h : print_msg fail path meta = PrintOutcome.ioError buf) :
    ∃ n : Nat, n < (opsList path meta).length ∧ buf = (opsList path meta).take n := by
  unfold print_msg at h
  rcases hr : runOps fail (opsList path meta) (0, []) with e | st
  · rw [hr] at h
    simp at h
    rcases runOps_error_buffer fail (opsList path meta) _ _ hr with ⟨n, hn, he⟩
    exact ⟨n, hn, by simpa [← h] using he⟩
  · rw [hr] at h
    by_cases hf : fail st.1 <;> simp [hf] at h

theorem reset_not_mem_opsFront (path : String) (meta : Metadata) :
    BufOp.reset ∉ opsFront path meta := by
  by_cases h1 : meta.homepage = "" <;> by_cases h2 : meta.authors = "" <;>
    simp [opsFront, h1, h2]

theorem reset_not_mem_take (path : String) (meta : Metadata) (n : Nat)
    (hn : n < (opsList path meta).length) :
    BufOp.reset ∉ (opsList path meta).take n := by
  intro hmem
  have hle : n ≤ (opsFront path meta).length := by
    have := hn
    simp [opsList] at this
    omega
  rw [opsList, List.take_append_of_le_length hle] at hmem
  exact reset_not_mem_opsFront path meta (List.take_subset n (opsFront path meta) hmem)

/-- Claim C9 counterexample: with the very first `writeln!` failing (oracle
failing call 1, after the successful `set_color` call 0), `print_msg` returns
the I/O error with the color change buffered and no reset ever issued, so the
color state it set is not restored on this early-failure exit path. -/
theorem claim_C9_counterexample :
    print_msg (fun n => n == 1) "log.toml" (Metadata.mk "0.1.0" "app" "" "")
        = PrintOutcome.ioError [BufOp.setColor "White"]
      ∧ BufOp.setColor "White" ∈ [BufOp.setColor "White"]
      ∧ BufOp.reset ∉ [BufOp.setColor "White"] := by
  refine ⟨by decide, by decide, by decide⟩

/-- Claim C9 as amended: on the success exit path the last buffered operation
before the terminal flush is the color reset, but on every early I/O-failure
exit path `print_msg` returns without having issued any reset (the buffered
operations are a proper prefix of the call sequence, which places the reset
last); the unflushed buffer is discarded, so on failure paths the terminal
itself never saw the color change either. -/
theorem claim_C9_amended (fail : Nat → Bool) (path : String) (meta : Metadata) :
    (∀ buf : List BufOp, print_msg fail path meta = PrintOutcome.ok buf →
        buf.getLast? = some BufOp.reset)
      ∧ (∀ buf : List BufOp, print_msg fail path meta = PrintOutcome.ioError buf →
        BufOp.reset ∉ buf) := by
  constructor
  · intro buf h
    rw [print_msg_ok_buffer fail path meta buf h, opsList]
    exact List.getLast?_concat _
  · intro buf h
    rcases print_msg_ioError_buffer fail path meta buf h with ⟨n, hn, he⟩
    rw [he]
    exact reset_not_mem_take path meta n hn

/-- Claim C9 amended witness: with no I/O failure, the flushed buffer ends with
the reset operation. -/
theorem claim_C9_amended_witness :
    (opsList "log.toml" (Metadata.mk "0.1.0" "app" "" "")).getLast? = some BufOp.reset :=
  (claim_C9_amended (fun _ => false) "log.toml" (Metadata.mk "0.1.0" "app" "" "")).1
    (opsList "log.toml" (Metadata.mk "0.1.0" "app" "" ""))
    (print_msg_noFail "log.toml" (Metadata.mk "0.1.0" "app" "" ""))

/-- Claim C3: with the opt-out unset, a debug-build panic first invokes the
previously active handler and then appends the formatted report to the log sink
prefixed with the severity marker, whatever the I/O oracle; a release-build
panic under working I/O appends the same prefixed report and then renders the
human-facing message buffer to the terminal, and only the release build prints
it. -/
theorem claim_C3_hook_actions (fail : Nat → Bool) (ptrSize : Nat) (frames : List Frame)
    (panic_info : PanicInfo) (path : String) (meta : Metadata) :
    hookRun false true fail ptrSize frames panic_info path meta
        = [Event.defaultHook,
            Event.logAppend ("Panic! :: " ++ format_panic ptrSize frames panic_info)]
      ∧ hookRun false false (fun _ => false) ptrSize frames panic_info path meta
        = [Event.logAppend ("Panic! :: " ++ format_panic ptrSize frames panic_info),
            Event.termPrint (opsList path meta)] := by
  constructor
  · simp [hookRun]
  · simp [hookRun, print_msg_noFail]

/-- Claim C1 counterexample: with the opt-out unset, a release build, and an I/O
error on the first `writeln!` of the user message, the handler's last event is a
secondary panic (the `expect` on the `print_msg` result), so the handler does
raise a new failure on this I/O-error path. -/
theorem claim_C1_counterexample :
    (hookRun false false (fun n => n == 1) 8 []
        (PanicInfo.mk (Payload.plainStr "boom") (some (Location.mk "main.rs" 3))) "log.toml"
        (Metadata.mk "0.1.0" "app" "" "")).getLast?
      = some (Event.panicked expectMsg) := by
  decide

/-- Claim C1 as amended: I/O errors while building the user message are surfaced
as a Result by `print_msg`, and the handler raises no failure of its own when
printing succeeds (and never in a debug build or when the opt-out is set); but
in a release build the handler escalates a `print_msg` error to a new panic via
`expect`, and a failure of the final terminal flush panics inside `print_msg`
via `unwrap`. -/
theorem claim_C1_amended (debug : Bool) (fail : Nat → Bool) (ptrSize : Nat) (frames : List Frame)
    (panic_info : PanicInfo) (path : String) (meta : Metadata) :
    (∀ m : String, Event.panicked m ∉ hookRun true debug fail ptrSize frames panic_info path meta)
      ∧ (∀ m : String,
          Event.panicked m ∉ hookRun false true fail ptrSize frames panic_info path meta)
      ∧ (∀ buf : List BufOp, print_msg fail path meta = PrintOutcome.ok buf →
          hookRun false false fail ptrSize frames panic_info path meta
            = [Event.logAppend ("Panic! :: " ++ format_panic ptrSize frames panic_info),
                Event.termPrint buf])
      ∧ (∀ buf : List BufOp, print_msg fail path meta = PrintOutcome.ioError buf →
          hookRun false false fail ptrSize frames panic_info path meta
            = [Event.logAppend ("Panic! :: " ++ format_panic ptrSize frames panic_info),
                Event.panicked expectMsg])
      ∧ (∀ buf : List BufOp, print_msg fail path meta = PrintOutcome.panicked buf →
          hookRun false false fail ptrSize frames panic_info path meta
            = [Event.logAppend ("Panic! :: " ++ format_panic ptrSize frames panic_info),
                Event.panicked flushPanicMsg]) := by
  refine ⟨?_, ?_, ?_, ?_, ?_⟩
  · intro m; simp [hookRun]
  · intro m; simp [hookRun]
  · intro buf h; simp [hookRun, h]
  · intro buf h; simp [hookRun, h]
  · intro buf h; simp [hookRun, h]

/-- Claim C1 amended witness: with working I/O in a release build the handler's
events are exactly the log append and the terminal print, with no secondary
panic. -/
theorem claim_C1_amended_witness :
    hookRun false false (fun _ => false) 8 []
        (PanicInfo.mk (Payload.plainStr "boom") (some (Location.mk "main.rs" 3))) "log.toml"
        (Metadata.mk "0.1.0" "app" "" "")
      = [Event.logAppend ("Panic! :: " ++ format_panic 8 []
            (PanicInfo.mk (Payload.plainStr "boom") (some (Location.mk "main.rs" 3)))),
          Event.termPrint (opsList "log.toml" (Metadata.mk "0.1.0" "app" "" ""))] :=
  (claim_C1_amended false (fun _ => false) 8 []
      (PanicInfo.mk (Payload.plainStr "boom") (some (Location.mk "main.rs" 3))) "log.toml"
      (Metadata.mk "0.1.0" "app" "" "")).2.2.1
    (opsList "log.toml" (Metadata.mk "0.1.0" "app" "" ""))
    (print_msg_noFail "log.toml" (Metadata.mk "0.1.0" "app" "" ""))

theorem strOccurs_renderBuf_of_mem (needle s : String) :
    ∀ l : List BufOp, BufOp.write s ∈ l → strOccurs needle s → strOccurs needle (renderBuf l) := by
  intro l
  induction l with
  | nil => intro h; simp at h
  | cons op rest ih =>
    intro hmem hocc
    rcases List.mem_cons.mp hmem with h | h
    · rw [← h]
      exact strOccurs_append_left needle s (renderBuf rest) hocc
    · cases op with
      | setColor c => exact ih h hocc
      | reset => exact ih h hocc
      | write t => exact strOccurs_append_right needle t (renderBuf rest) (ih h hocc)

/-- Claim C8: with working I/O, the buffer `print_msg` flushes is exactly the
template sequence `opsList`; its text contains the log file path verbatim and
the crate name; its operation count shows that the Homepage line is present
exactly when the homepage field is nonempty and the Authors line exactly when
the authors field is nonempty, each line carrying the field verbatim. -/
theorem claim_C8_user_message (path : String) (meta : Metadata) :
    print_msg (fun _ => false) path meta = PrintOutcome.ok (opsList path meta)
      ∧ strOccurs path (renderBuf (opsList path meta))
      ∧ strOccurs meta.name (renderBuf (opsList path meta))
      ∧ (opsList path meta).length
        = 7 + (if meta.homepage ≠ "" then 1 else 0) + (if meta.authors ≠ "" then 1 else 0)
      ∧ (meta.homepage ≠ "" →
          BufOp.write ("- Homepage: " ++ meta.homepage ++ "\n") ∈ opsList path meta)
      ∧ (meta.authors ≠ "" →
          BufOp.write ("- Authors: " ++ meta.authors ++ "\n") ∈ opsList path meta) := by
  refine ⟨print_msg_noFail path meta, ?_, ?_, ?_, ?_, ?_⟩
  · refine strOccurs_renderBuf_of_mem path (msgLine3 path meta.name) _ (by simp [opsList, opsFront]) ?_
    exact strOccurs_of_eq path m3a (m3b meta.name) (msgLine3 path meta.name) rfl
  · refine strOccurs_renderBuf_of_mem meta.name (msgLine2 meta.name) _ (by simp [opsList, opsFront]) ?_
    exact strOccurs_of_eq meta.name ""
      (" had a problem and crashed. To help us diagnose the problem you can send us a crash report.\n\n")
      (msgLine2 meta.name) (by simp [msgLine2])
  · by_cases h1 : meta.homepage = "" <;> by_cases h2 : meta.authors = "" <;>
      simp [opsList, opsFront, h1, h2]
  · intro h; simp [opsList, opsFront, h]
  · intro h; simp [opsList, opsFront, h]

/-- Claim C8 witness: for a concrete metadata value with nonempty authors and
homepage, both lines appear in the flushed buffer. -/
theorem claim_C8_user_message_witness :
    BufOp.write ("- Homepage: " ++ "example.org" ++ "\n")
        ∈ opsList "log.toml" (Metadata.mk "0.1.0" "app" "Me Myself" "example.org")
      ∧ BufOp.write ("- Authors: " ++ "Me Myself" ++ "\n")
        ∈ opsList "log.toml" (Metadata.mk "0.1.0" "app" "Me Myself" "example.org") :=
  ⟨(claim_C8_user_message "log.toml"
      (Metadata.mk "0.1.0" "app" "Me Myself" "example.org")).2.2.2.2.1 (by decide),
    (claim_C8_user_message "log.toml"
      (Metadata.mk "0.1.0" "app" "Me Myself" "example.org")).2.2.2.2.2 (by decide)⟩

/-- Claim C4 counterexample: for a failure record with message present and
location file `f.rs` line 1, the formatted report does not contain the
`file:line` substring `f.rs:1` at all (the location is rendered as a quoted
file name followed by `at line` and the number), so it certainly does not
contain it exactly once. -/
theorem claim_C4_counterexample :
    panicMessage (Payload.plainStr "boom") = some "boom"
      ∧ format_panic 8 [] (PanicInfo.mk (Payload.plainStr "boom") (some (Location.mk "f.rs" 1)))
        = "Panic occurred in file \x27f.rs\x27 at line 1\n\n   boom\n"
      ∧ countOcc ("f.rs:1".data)
          ((format_panic 8 []
            (PanicInfo.mk (Payload.plainStr "boom") (some (Location.mk "f.rs" 1)))).data)
        ≠ 1 := by
  refine ⟨rfl, by decide, by decide⟩

/-- Claim C4 as amended: for every failure record whose message and location are
both present, the formatted report contains the literal message and the literal
location rendering (the substring built from the file and line); when the
message is absent the report contains Unknown in its place, and when the
location is absent it contains the fixed location-unknown line. -/
theorem claim_C4_amended (ptrSize : Nat) (frames : List Frame) (f m : String) (l : Nat) :
    strOccurs m
        (format_panic ptrSize frames (PanicInfo.mk (Payload.plainStr m) (some (Location.mk f l))))
      ∧ strOccurs m
        (format_panic ptrSize frames (PanicInfo.mk (Payload.ownedString m) (some (Location.mk f l))))
      ∧ strOccurs ("file \x27" ++ f ++ "\x27 at line " ++ toString l)
        (format_panic ptrSize frames (PanicInfo.mk (Payload.plainStr m) (some (Location.mk f l))))
      ∧ strOccurs "Unknown"
        (format_panic ptrSize frames (PanicInfo.mk Payload.other (some (Location.mk f l))))
      ∧ strOccurs "Panic location unknown."
        (format_panic ptrSize frames (PanicInfo.mk (Payload.plainStr m) none)) := by
  refine ⟨?_, ?_, ?_, ?_, ?_⟩
  · exact strOccurs_of_eq m
      ("Panic occurred in file \x27" ++ f ++ "\x27 at line " ++ toString l ++ "\n" ++ "\n   ")
      ("\n" ++ format_backtrace ptrSize frames) _
      (by simp [format_panic, panicMessage, String.append_assoc])
  · exact strOccurs_of_eq m
      ("Panic occurred in file \x27" ++ f ++ "\x27 at line " ++ toString l ++ "\n" ++ "\n   ")
      ("\n" ++ format_backtrace ptrSize frames) _
      (by simp [format_panic, panicMessage, String.append_assoc])
  · refine ⟨("Panic occurred in " : String).data,
      ("\n" ++ ("\n   " ++ (m ++ ("\n" ++ format_backtrace ptrSize frames)))).data, ?_⟩
    have hsplit : ("Panic occurred in file \x27" : String).data
        = ("Panic occurred in " : String).data ++ ("file \x27" : String).data := rfl
    simp [format_panic, panicMessage, String.data_append, hsplit, List.append_assoc]
  · exact strOccurs_of_eq "Unknown"
      ("Panic occurred in file \x27" ++ f ++ "\x27 at line " ++ toString l ++ "\n" ++ "\n   ")
      ("\n" ++ format_backtrace ptrSize frames) _
      (String.append_assoc
        ("Panic occurred in file \x27" ++ f ++ "\x27 at line " ++ toString l ++ "\n" ++ "\n   "
          ++ "Unknown") "\n" (format_backtrace ptrSize frames))
  · refine ⟨[], ("\n" ++ ("\n   " ++ (m ++ ("\n" ++ format_backtrace ptrSize frames)))).data, ?_⟩
    have hsplit : ("Panic location unknown.\n" : String).data
        = ("Panic location unknown." : String).data ++ ("\n" : String).data := rfl
    simp [format_panic, panicMessage, String.data_append, hsplit, List.append_assoc]

/-- Claim C6 counterexample: the padding width the source uses for the
instruction pointer is `size_of::<usize>() + 2`, not pointer size times two plus
two: with 8-byte pointers a null instruction pointer renders as `0x0` preceded
by seven fill spaces, 10 characters in all, not 18. -/
theorem claim_C6_counterexample :
    HEX_WIDTH 8 = 10
      ∧ formatPtr (HEX_WIDTH 8) 0 = "       0x0"
      ∧ (formatPtr (HEX_WIDTH 8) 0).length ≠ 2 * 8 + 2
      ∧ frameHeader 8 0 (Frame.mk 0 []) = "\n   0:        0x0" := by
  refine ⟨rfl, by decide, by decide, by decide⟩

/-- Claim C6 as amended: each frame header renders the instruction pointer with
minimum width `HEX_WIDTH`, which equals the pointer size in bytes plus two for
the prefix, the fill being spaces before the prefix; whenever the prefix and the
address's hex digits fit within that width, the rendered address is exactly
that wide. -/
theorem claim_C6_amended (ptrSize idx ip : Nat) (syms : List Symbol)
    (h : (Nat.toDigits 16 ip).length ≤ ptrSize) :
    HEX_WIDTH ptrSize = ptrSize + 2
      ∧ frameHeader ptrSize idx (Frame.mk ip syms)
        = "\n" ++ padLeft 4 (toString idx) ++ ": " ++ formatPtr (HEX_WIDTH ptrSize) ip
      ∧ (formatPtr (HEX_WIDTH ptrSize) ip).length = ptrSize + 2 := by
  refine ⟨rfl, rfl, ?_⟩
  have h2 : ("0x" : String).length = 2 := rfl
  simp [formatPtr, HEX_WIDTH, String.length_append, String.length_mk, List.length_replicate, h2]
  omega

/-- Claim C6 amended witness: with 8-byte pointers the address 255 renders 10
characters wide. -/
theorem claim_C6_amended_witness :
    HEX_WIDTH 8 = 8 + 2
      ∧ frameHeader 8 0 (Frame.mk 255 [])
        = "\n" ++ padLeft 4 (toString 0) ++ ": " ++ formatPtr (HEX_WIDTH 8) 255
      ∧ (formatPtr (HEX_WIDTH 8) 255).length = 8 + 2 :=
  claim_C6_amended 8 0 255 [] (by decide)

end HumanPanic
